import Mathlib

/-!
# Verification of the repo-pilot frontend against its specification

Shallow embedding of the React frontend of `hrishi0102/repo-pilot`.

Each user-action handler of the frontend is modelled as a pure function
from its component-state inputs and the outcome of its (single) `fetch`
call to the list of observable events it performs, in source order:
state-hook updates, `localStorage` writes/removals, navigation, and the
network request itself.  Deferred work (`setTimeout` callbacks) appears
in the trace at the point where the event loop would run it, i.e. after
the synchronous part of the handler.  `localStorage` values are modelled
as JS values (`JSON.stringify`/`JSON.parse` round-trip is the identity on
the data objects involved).  The `JSON.parse` platform builtin itself is
not re-implemented: the viewer-mount logic is modelled over the three
outcomes it can observe (no stored item, a string that fails to parse, a
parsed value).
-/

/-- A JavaScript value, as far as the frontend inspects one:
`undefined`, `null`, booleans, (integer) numbers, strings and plain
objects with ordered fields. -/
inductive JsVal where
  | undef
  | null
  | bool (b : Bool)
  | num (n : Int)
  | str (s : String)
  | obj (fields : List (String × JsVal))

/-- Property access `v.k`: the field value on an object, `undefined`
otherwise (also for a missing field). -/
def JsVal.get : JsVal → String → JsVal
  | .obj fs, k => getAux fs k
  | _, _ => .undef
where
  getAux : List (String × JsVal) → String → JsVal
    | [], _ => .undef
    | (k₀, v) :: rest, k => if k₀ = k then v else getAux rest k

/-- Whether an object value carries the named field (the `in`-style
containment the spec asks about). -/
def JsVal.hasF : JsVal → String → Bool
  | .obj fs, k => fs.any (fun p => p.1 = k)
  | _, _ => false

/-- JS truthiness. -/
def JsVal.truthy : JsVal → Bool
  | .undef => false
  | .null => false
  | .bool b => b
  | .num n => n != 0
  | .str s => s != ""
  | .obj _ => true

/-- JS string coercion, to the extent error messages need it. -/
def JsVal.toStr : JsVal → String
  | .undef => "undefined"
  | .null => "null"
  | .bool true => "true"
  | .bool false => "false"
  | .num n => toString n
  | .str s => s
  | .obj _ => "[object Object]"

/-- `a || b` on JS values (used for `data.detail || "fallback"`). -/
def jsOr (a b : JsVal) : JsVal :=
  if a.truthy then a else b

/-- The whitespace class trimmed by `String.prototype.trim` (ASCII part,
which is all the frontend distinguishes). -/
def jsWS (c : Char) : Bool :=
  c == ' ' || c == '\t' || c == '\n' || c == '\r' || c == '\x0b' || c == '\x0c'

/-- `String.prototype.trim`. -/
def jsTrim (s : String) : String :=
  String.mk (((s.data.dropWhile jsWS).reverse.dropWhile jsWS).reverse)

/-- Outcome of one `fetch(...)` followed by `await response.json()`:
either a parsed body together with `response.ok`, or a thrown error
(network failure or a body that is not JSON) with its message. -/
inductive FetchOutcome where
  | success (ok : Bool) (data : JsVal)
  | failure (msg : String)

/-- Observable events a handler performs, in source order. -/
inductive Ev where
  | setLoading (b : Bool)
  | setIngestLoading (b : Bool)
  | setKeyValidating (b : Bool)
  | request (path : String) (body : JsVal)
  | storeSet (key : String) (value : JsVal)
  | storeRemove (key : String)
  | navigate (path : String)
  | appendMsg (role : String) (content : JsVal)
  | setMessages (ms : List (String × JsVal))
  | setQuery (s : String)
  | setError (s : String)
  | setStep (n : Nat)
  | setSessionId (v : JsVal)
  | setKeyValid (v : Option Bool)
  | setApiKey (s : String)
  | consoleLog

/-- The browser-side state a trace acts on: `localStorage` plus the
component state hooks the claims mention. -/
structure UIState where
  store : List (String × JsVal)
  messages : List (String × JsVal)
  loading : Bool
  ingestLoading : Bool
  keyValidating : Bool
  query : String
  error : String
  route : String
  step : Nat
  sessionId : JsVal
  keyValid : Option Bool
  apiKey : String

/-- `localStorage.setItem`: replace the binding if present, else append. -/
def updStore (k : String) (v : JsVal) : List (String × JsVal) → List (String × JsVal)
  | [] => [(k, v)]
  | (k₀, v₀) :: rest => if k₀ = k then (k, v) :: rest else (k₀, v₀) :: updStore k v rest

/-- `localStorage.removeItem`. -/
def rmStore (k : String) : List (String × JsVal) → List (String × JsVal)
  | [] => []
  | (k₀, v₀) :: rest => if k₀ = k then rmStore k rest else (k₀, v₀) :: rmStore k rest

/-- `localStorage.getItem` (as a JS value; `none` plays `null`). -/
def lookupStore (st : List (String × JsVal)) (k : String) : Option JsVal :=
  match st with
  | [] => none
  | (k₀, v) :: rest => if k₀ = k then some v else lookupStore rest k

/-- Apply one event to the state. -/
def applyEv (st : UIState) : Ev → UIState
  | .setLoading b => { st with loading := b }
  | .setIngestLoading b => { st with ingestLoading := b }
  | .setKeyValidating b => { st with keyValidating := b }
  | .request _ _ => st
  | .storeSet k v => { st with store := updStore k v st.store }
  | .storeRemove k => { st with store := rmStore k st.store }
  | .navigate p => { st with route := p }
  | .appendMsg role content => { st with messages := st.messages ++ [(role, content)] }
  | .setMessages ms => { st with messages := ms }
  | .setQuery s => { st with query := s }
  | .setError s => { st with error := s }
  | .setStep n => { st with step := n }
  | .setSessionId v => { st with sessionId := v }
  | .setKeyValid v => { st with keyValid := v }
  | .setApiKey s => { st with apiKey := s }
  | .consoleLog => st

/-- Replay a trace. -/
def applyEvs (st : UIState) (evs : List Ev) : UIState :=
  evs.foldl applyEv st

/-- The network requests a trace issues. -/
def requestsOf (evs : List Ev) : List (String × JsVal) :=
  evs.filterMap fun e =>
    match e with
    | .request p b => some (p, b)
    | _ => none

/-! ## HomePage.jsx -/

/-- The `/ingest` request body built by `HomePage.handleSubmit`:
`{ repo_url: repoUrl.trim(), ...(useOwnKey && apiKey.trim() && { api_key: apiKey.trim() }) }`. -/
def ingestBody (repoUrl : String) (useOwnKey : Bool) (apiKey : String) : JsVal :=
  .obj ([("repo_url", .str (jsTrim repoUrl))] ++
    (if useOwnKey = true ∧ jsTrim apiKey ≠ "" then [("api_key", .str (jsTrim apiKey))] else []))

/-- `HomePage.handleSubmit` (src/frontend/src/components/HomePage.jsx,
lines 58-107), as the trace of events of one invocation. -/
def handleSubmit (repoUrl : String) (useOwnKey : Bool) (apiKey : String)
    (keyValid : Option Bool) (outcome : FetchOutcome) : List Ev :=
  if jsTrim repoUrl = "" then []
  else if useOwnKey = true ∧ jsTrim apiKey ≠ "" ∧ keyValid = some false then
    [.setError "Please provide a valid API key or uncheck the option to use system key"]
  else
    [.setLoading true, .setError "",
     .request "/ingest" (ingestBody repoUrl useOwnKey apiKey)] ++
    (match outcome with
     | .success ok data =>
       if ok then
         [.storeSet "sessionId" (data.get "session_id"),
          .storeSet "repoUrl" (.str (jsTrim repoUrl)),
          .storeSet "hasUserKey"
            (.str (if useOwnKey = true ∧ jsTrim apiKey ≠ "" then "true" else "false")),
          .navigate "/generate",
          .setLoading false]
       else
         [.consoleLog,
          .setError (jsOr (data.get "detail") (.str "Failed to ingest repository")).toStr,
          .setLoading false]
     | .failure msg => [.consoleLog, .setError msg, .setLoading false])

/-- `HomePage.validateApiKey` (HomePage.jsx lines 16-40). -/
def validateApiKey (key : String) (outcome : FetchOutcome) : List Ev :=
  if jsTrim key = "" then [.setKeyValid none]
  else
    [.setKeyValidating true,
     .request "/validate-key" (.obj [("api_key", .str (jsTrim key))])] ++
    (match outcome with
     | .success ok _ => [.setKeyValid (some ok), .setKeyValidating false]
     | .failure _ => [.setKeyValid (some false), .setKeyValidating false])

/-- What `HomePage.handleApiKeyChange` (HomePage.jsx lines 42-56)
schedules: whether a debounce timeout is installed and, when it later
fires, whether its guard `apiKey === newKey` (over the closure-captured
pre-change `apiKey`) lets it call `validateApiKey`. -/
structure DebouncedValidation where
  scheduled : Bool
  delayMs : Nat
  fires : Bool

/-- `HomePage.handleApiKeyChange`: synchronous events plus the scheduled
debounce callback description.  `apiKey` is the state value captured by
the render that installed the handler; `newKey` is `e.target.value`. -/
def handleApiKeyChange (apiKey newKey : String) : List Ev × DebouncedValidation :=
  ([.setApiKey newKey, .setKeyValid none],
   { scheduled := decide (jsTrim newKey ≠ "")
     delayMs := 1000
     fires := decide (jsTrim newKey ≠ "") && decide (apiKey = newKey) })

/-- The events the debounce callback of `handleApiKeyChange` performs
when its timeout fires. -/
def debouncedEvents (apiKey newKey : String) (outcome : FetchOutcome) : List Ev :=
  if (handleApiKeyChange apiKey newKey).2.fires then validateApiKey newKey outcome else []

/-! ## Chat.jsx and App.jsx -/

/-- `Chat.sendMessage` (Chat.jsx lines 23-52); `App.sendMessage`
(App.jsx lines 59-92) performs the identical logic. -/
def sendMessage (query sessionId : String) (outcome : FetchOutcome) : List Ev :=
  if query = "" ∨ sessionId = "" then []
  else
    [.appendMsg "user" (.str query),
     .setLoading true,
     .setQuery "",
     .request "/chat" (.obj [("session_id", .str sessionId), ("query", .str query)])] ++
    (match outcome with
     | .success _ data => [.appendMsg "assistant" (data.get "answer"), .setLoading false]
     | .failure msg =>
       [.consoleLog, .appendMsg "assistant" (.str ("Error: " ++ msg)), .setLoading false])

/-- `App.ingestRepository` (App.jsx lines 25-57). -/
def ingestRepository (repoUrl : String) (outcome : FetchOutcome) : List Ev :=
  if repoUrl = "" then []
  else
    [.setIngestLoading true,
     .request "/ingest" (.obj [("repo_url", .str repoUrl)])] ++
    (match outcome with
     | .success _ data =>
       [.setSessionId (data.get "session_id"),
        .storeSet "sessionId" (data.get "session_id"),
        .storeSet "repoUrl" (.str repoUrl),
        .setMessages [("assistant", data.get "response")],
        .setIngestLoading false]
     | .failure msg =>
       [.consoleLog,
        .setMessages [("assistant", .str ("Error ingesting repository: " ++ msg))],
        .setIngestLoading false])

/-! ## DocumentationHome.jsx -/

/-- `DocumentationHome.handleIngestRepository` (DocumentationHome.jsx
lines 9-37). -/
def handleIngestRepository (repoUrl : String) (outcome : FetchOutcome) : List Ev :=
  if repoUrl = "" then []
  else
    [.setLoading true, .setError "",
     .request "/ingest" (.obj [("repo_url", .str repoUrl)])] ++
    (match outcome with
     | .success ok data =>
       if ok then
         [.setSessionId (data.get "session_id"),
          .storeSet "sessionId" (data.get "session_id"),
          .storeSet "repoUrl" (.str repoUrl),
          .setLoading false]
       else
         [.consoleLog,
          .setError (jsOr (data.get "detail") (.str "Failed to ingest repository")).toStr,
          .setLoading false]
     | .failure msg => [.consoleLog, .setError msg, .setLoading false])

/-- `DocumentationHome.handleGenerateDocumentation` (DocumentationHome.jsx
lines 39-69): on success stores the body and assigns
`window.location.href = "/docs"` before the `finally` clears loading. -/
def homeGenerateDocs (sessionId : String) (outcome : FetchOutcome) : List Ev :=
  if sessionId = "" then []
  else
    [.setLoading true, .setError "",
     .request "/generate-docs" (.obj [("session_id", .str sessionId)])] ++
    (match outcome with
     | .success ok data =>
       if ok then
         [.storeSet "documentationData" data, .navigate "/docs", .setLoading false]
       else
         [.consoleLog,
          .setError (jsOr (data.get "detail") (.str "Failed to generate documentation")).toStr,
          .setLoading false]
     | .failure msg => [.consoleLog, .setError msg, .setLoading false])

/-! ## GenerationPage.jsx -/

/-- `GenerationPage.handleGenerateDocumentation` (GenerationPage.jsx
lines 25-63).  The success branch stores the body, sets step 3 and
schedules `navigate("/docs")` after 2 s; the `finally` clears loading
before that timeout fires, so `navigate` is the final event. -/
def handleGenerateDocumentation (sessionId : String) (outcome : FetchOutcome) : List Ev :=
  if sessionId = "" then []
  else
    [.setLoading true, .setError "", .setStep 2,
     .request "/generate-docs" (.obj [("session_id", .str sessionId)])] ++
    (match outcome with
     | .success ok data =>
       if ok then
         [.storeSet "documentationData" data, .setStep 3, .setLoading false,
          .navigate "/docs"]
       else
         [.consoleLog,
          .setError (jsOr (data.get "detail") (.str "Failed to generate documentation")).toStr,
          .setStep 1, .setLoading false]
     | .failure msg => [.consoleLog, .setError msg, .setStep 1, .setLoading false])

/-- `GenerationPage.handleNewRepository` (GenerationPage.jsx lines 65-70). -/
def handleNewRepositoryGen : List Ev :=
  [.storeRemove "sessionId", .storeRemove "repoUrl", .storeRemove "documentationData",
   .navigate "/"]

/-! ## DocumentationViewer.jsx -/

/-- `DocumentationViewer.handleNewRepository` (DocumentationViewer.jsx
lines 245-250). -/
def handleNewRepositoryViewer : List Ev :=
  [.storeRemove "documentationData", .storeRemove "sessionId", .storeRemove "repoUrl",
   .navigate "/"]

/-- What `localStorage.getItem("documentationData")` followed by
`JSON.parse` can look like from the viewer: no stored item, a stored
string that throws in `JSON.parse`, or a parsed value. -/
inductive StoredDoc where
  | absent
  | invalidJson
  | parsed (v : JsVal)

/-- Result of the viewer mount effect. -/
structure MountOut where
  data : Option JsVal
  hasError : Bool
  redirect : Option (String × Nat)

/-- The mount `useEffect` of `DocumentationViewer`
(DocumentationViewer.jsx lines 15-38): validity means
`parsedData.introduction || parsedData.chapters` is truthy. -/
def viewerMount : StoredDoc → MountOut
  | .absent => ⟨none, true, some ("/", 2000)⟩
  | .invalidJson => ⟨none, true, some ("/", 2000)⟩
  | .parsed v =>
    if (v.get "introduction").truthy = false ∧ (v.get "chapters").truthy = false then
      ⟨none, true, some ("/", 2000)⟩
    else
      ⟨some v, false, none⟩

/-- The structural-validity predicate of `DocumentationViewer.jsx`. -/
def validDocMain : StoredDoc → Bool
  | .parsed v => (v.get "introduction").truthy || (v.get "chapters").truthy
  | _ => false

/-- The mount `useEffect` of the `DocumentationViewer` revision in
src/unnamed/part_005 (lines 18-33): validity requires both
`parsed.introduction` and `parsed.chapters` to be truthy. -/
def viewerMountAlt : StoredDoc → MountOut
  | .absent => ⟨none, true, some ("/", 2000)⟩
  | .invalidJson => ⟨none, true, some ("/", 2000)⟩
  | .parsed v =>
    if (v.get "introduction").truthy = false ∨ (v.get "chapters").truthy = false then
      ⟨none, true, some ("/", 2000)⟩
    else
      ⟨some v, false, none⟩

/-- The structural-validity predicate of the part_005 revision. -/
def validDocAlt : StoredDoc → Bool
  | .parsed v => (v.get "introduction").truthy && (v.get "chapters").truthy
  | _ => false

/-! ## DocumentationViewer.jsx: content pre-processing and sanitising

Each `String.prototype.replace(/…/g, …)` pass is modelled by a scanner
that walks the input left to right, attempting the pattern at every
position (tracking whether the position is at a line start for `m`-flag
anchors), emitting the replacement and resuming after a match, exactly
as a global regex replace does.  Greedy/backtracking behaviour of each
concrete pattern is resolved into its net effect, noted per pass. -/

/-- `\s` of the patterns involved (ASCII part). -/
def reWS (c : Char) : Bool := jsWS c

/-- `\w`, i.e. `[A-Za-z0-9_]`. -/
def reWord (c : Char) : Bool :=
  ('a' ≤ c && c ≤ 'z') || ('A' ≤ c && c ≤ 'Z') || ('0' ≤ c && c ≤ '9') || c == '_'

/-- Whether the last consumed character ends a line (for the `m`-flag
`^` anchor of the next scanning position). -/
def endsWithNl (cs : List Char) : Bool :=
  match cs.getLast? with
  | some '\n' => true
  | _ => false

/-- Generic global-replace scanner.  `m atStart cs` attempts the pattern
at the head of `cs` and returns `(consumed, replacement)` on a match
(`consumed ≥ 1` for every pattern modelled here).  Fuel is the input
length; every step consumes at least one character. -/
def replScan (m : Bool → List Char → Option (Nat × List Char)) :
    Nat → Bool → List Char → List Char
  | 0, _, cs => cs
  | _ + 1, _, [] => []
  | fuel + 1, atStart, c :: cs =>
    match m atStart (c :: cs) with
    | some (k, rep) =>
      rep ++ replScan m fuel (endsWithNl ((c :: cs).take k)) ((c :: cs).drop k)
    | none => c :: replScan m fuel (c == '\n') cs

/-- Longest prefix of `cs` made of `p`-characters, with the rest. -/
def spanP (p : Char → Bool) (cs : List Char) : List Char × List Char :=
  (cs.takeWhile p, cs.dropWhile p)

/-- Net effect of `\s*\n\s*` followed by a `\w` character: the maximal
whitespace run must contain a newline and the first character after it
must be a word character.  Returns the rest after the whitespace run. -/
def matchGapThenWord (cs : List Char) : Option (List Char) :=
  let w := cs.takeWhile reWS
  let rest := cs.dropWhile reWS
  if w.contains '\n' then
    match rest with
    | c :: _ => if reWord c then some rest else none
    | [] => none
  else none

/-- Net effect of trailing `\s*\n`: the whitespace run ahead must
contain a newline; the match consumes up to and including its last
newline (greedy `\s*` backtracks to leave the `\n` for the literal).
Returns the number of characters consumed. -/
def matchWsThenNl (cs : List Char) : Option Nat :=
  let w := cs.takeWhile reWS
  if w.contains '\n' then
    some (w.length - (w.reverse.takeWhile (fun c => c != '\n')).length)
  else none

/-- Net effect of `\s*$` (with the `m` flag): greedy `\s*` consumes up
to the last position that is at end of input or immediately before a
newline.  Returns the number of whitespace characters consumed, or
`none` when no such position exists. -/
def matchWsThenEol (cs : List Char) : Option Nat :=
  let w := cs.takeWhile reWS
  let rest := cs.dropWhile reWS
  if rest = [] then some w.length
  else if w.contains '\n' then
    some (w.length - (w.reverse.takeWhile (fun c => c != '\n')).length - 1)
  else none

/-- Pass 1 of `preprocessContent`:
`/```(\w*)\s*\n\s*(\w+)\s*\n/g → "```$1\n"`. -/
def matchFence1 (_ : Bool) (cs : List Char) : Option (Nat × List Char) :=
  match cs with
  | '`' :: '`' :: '`' :: rest =>
    let g1 := rest.takeWhile reWord
    let r1 := rest.dropWhile reWord
    match matchGapThenWord r1 with
    | some r2 =>
      let g2len := (r2.takeWhile reWord).length
      let r3 := r2.dropWhile reWord
      match matchWsThenNl r3 with
      | some k3 =>
        let gap1 := r1.length - (r1.dropWhile reWS).length
        some (3 + g1.length + gap1 + g2len + k3, '`' :: '`' :: '`' :: (g1 ++ ['\n']))
      | none => none
    | none => none
  | _ => none

/-- Pass 2 of `preprocessContent`: `/^TEXT\s*$/gm → ""`. -/
def matchTextLine (atStart : Bool) (cs : List Char) : Option (Nat × List Char) :=
  if atStart then
    match cs with
    | 'T' :: 'E' :: 'X' :: 'T' :: rest =>
      match matchWsThenEol rest with
      | some k => some (4 + k, [])
      | none => none
    | _ => none
  else none

/-- Pass 3 of `preprocessContent`: `/^\d+\s+lines?\s*$/gm → ""`. -/
def matchLinesLine (atStart : Bool) (cs : List Char) : Option (Nat × List Char) :=
  if atStart then
    let ds := cs.takeWhile Char.isDigit
    let r1 := cs.dropWhile Char.isDigit
    if ds = [] then none
    else
      let w1 := r1.takeWhile reWS
      let r2 := r1.dropWhile reWS
      if w1 = [] then none
      else
        match r2 with
        | 'l' :: 'i' :: 'n' :: 'e' :: rest =>
          let sOpt := match rest with
            | 's' :: _ => 1
            | _ => 0
          let rest₂ := rest.drop sOpt
          match matchWsThenEol rest₂ with
          | some k => some (ds.length + w1.length + 4 + sOpt + k, [])
          | none => none
        | _ => none
  else none

/-- Pass 4 of `preprocessContent`: `/```TEXT/g → "```text"`. -/
def matchFenceTEXT (_ : Bool) (cs : List Char) : Option (Nat × List Char) :=
  match cs with
  | '`' :: '`' :: '`' :: 'T' :: 'E' :: 'X' :: 'T' :: _ =>
    some (7, ['`', '`', '`', 't', 'e', 'x', 't'])
  | _ => none

/-- Pass 5 of `preprocessContent`: `/([^\n])\n```/g → "$1\n\n```"`. -/
def matchBeforeFence (_ : Bool) (cs : List Char) : Option (Nat × List Char) :=
  match cs with
  | c :: '\n' :: '`' :: '`' :: '`' :: _ =>
    if c != '\n' then some (5, [c, '\n', '\n', '`', '`', '`']) else none
  | _ => none

/-- Pass 6 of `preprocessContent`: `/```\n([^\n])/g → "```\n\n$1"`. -/
def matchAfterFence (_ : Bool) (cs : List Char) : Option (Nat × List Char) :=
  match cs with
  | '`' :: '`' :: '`' :: '\n' :: c :: _ =>
    if c != '\n' then some (5, ['`', '`', '`', '\n', '\n', c]) else none
  | _ => none

/-- `DocumentationViewer.preprocessContent` (DocumentationViewer.jsx
lines 303-323) on a non-null string. -/
def preprocessChars (cs : List Char) : List Char :=
  let s₁ := replScan matchFence1 cs.length true cs
  let s₂ := replScan matchTextLine s₁.length true s₁
  let s₃ := replScan matchLinesLine s₂.length true s₂
  let s₄ := replScan matchFenceTEXT s₃.length true s₃
  let s₅ := replScan matchBeforeFence s₄.length true s₄
  replScan matchAfterFence s₅.length true s₅

/-- `sanitizeContent` step: `/\n{3,}/g → "\n\n"` (collapse each maximal
run of three or more newlines to two). -/
def matchNlRun (_ : Bool) (cs : List Char) : Option (Nat × List Char) :=
  match cs with
  | '\n' :: '\n' :: '\n' :: rest =>
    some (3 + (rest.takeWhile (fun c => c == '\n')).length, ['\n', '\n'])
  | _ => none

/-- Number of non-overlapping occurrences of three consecutive backticks,
exactly as `(s.match(/```/g) || []).length` counts them. -/
def countTicks : List Char → Nat
  | '`' :: '`' :: '`' :: rest => countTicks rest + 1
  | _ :: rest => countTicks rest
  | [] => 0

/-- `sanitizeContent` step: append a closing fence when the count of
fence markers is odd. -/
def closeFences (cs : List Char) : List Char :=
  if countTicks cs % 2 ≠ 0 then cs ++ ['\n', '`', '`', '`'] else cs

/-- `sanitizeContent` step: `/^(#{1,6})([^#\s])/gm → "$1 $2"`. -/
def matchHeading (atStart : Bool) (cs : List Char) : Option (Nat × List Char) :=
  if atStart then
    let hs := cs.takeWhile (fun c => c == '#')
    let rest := cs.dropWhile (fun c => c == '#')
    if hs.length ≥ 1 ∧ hs.length ≤ 6 then
      match rest with
      | c :: _ => if reWS c = false then some (hs.length + 1, hs ++ [' ', c]) else none
      | [] => none
    else none
  else none

/-- The tag allowlist of the stray-HTML-removal pass. -/
def allowedTags : List (List Char) :=
  ["code".data, "pre".data, "em".data, "strong".data, "a".data, "img".data,
   "br".data, "hr".data, "ul".data, "ol".data, "li".data, "p".data,
   "h1".data, "h2".data, "h3".data, "h4".data, "h5".data, "h6".data,
   "blockquote".data, "table".data, "thead".data, "tbody".data,
   "tr".data, "th".data, "td".data]

/-- Case-insensitive prefix test followed by a `\b` word boundary. -/
def tagMatchesAt (tag cs : List Char) : Bool :=
  match tag, cs with
  | [], [] => true
  | [], c :: _ => reWord c = false
  | _ :: _, [] => false
  | t :: ts, c :: rest => (t.toLower == c.toLower) && tagMatchesAt ts rest

/-- The negative lookahead `(?!\/?(code|…|td)\b)` fails the match (i.e.
the tag is kept) iff some allowlisted tag matches after an optional
leading slash. -/
def allowedAt (cs : List Char) : Bool :=
  let body := match cs with
    | '/' :: rest => rest
    | _ => cs
  allowedTags.any (fun t => tagMatchesAt t body)

/-- Index of the first `'>'` in `cs`, if any. -/
def findGt : List Char → Option Nat
  | [] => none
  | '>' :: _ => some 0
  | _ :: rest => (findGt rest).map (· + 1)

/-- `sanitizeContent` step:
`/<(?!\/?(code|pre|em|strong|a|img|br|hr|ul|ol|li|p|h[1-6]|blockquote|table|thead|tbody|tr|th|td)\b)[^>]*>/gi → ""`. -/
def matchStrayTag (_ : Bool) (cs : List Char) : Option (Nat × List Char) :=
  match cs with
  | '<' :: rest =>
    if allowedAt rest then none
    else
      match findGt rest with
      | some j => some (j + 2, [])
      | none => none
  | _ => none

/-- `DocumentationViewer.sanitizeContent` (DocumentationViewer.jsx lines
326-354) on a non-null string, staged per source statement. -/
def sanitizeChars (cs : List Char) : List Char :=
  let p := preprocessChars cs
  let collapsed := replScan matchNlRun p.length true p
  let closed := closeFences collapsed
  let headed := replScan matchHeading closed.length true closed
  replScan matchStrayTag headed.length true headed

/-- `sanitizeContent` as a `String` transformation. -/
def sanitizeContent (s : String) : String :=
  String.mk (sanitizeChars s.data)

/-! ## DocumentationViewer.jsx: chapter ordering -/

/-- Digit value for `parseInt` in base 10 or 16. -/
def radixDigit (base : Nat) (c : Char) : Option Nat :=
  if '0' ≤ c ∧ c ≤ '9' then some (c.toNat - '0'.toNat)
  else if base = 16 ∧ 'a' ≤ c ∧ c ≤ 'f' then some (c.toNat - 'a'.toNat + 10)
  else if base = 16 ∧ 'A' ≤ c ∧ c ≤ 'F' then some (c.toNat - 'A'.toNat + 10)
  else none

/-- Accumulate the leading digits of `cs` in the given base. -/
def digitsVal (base : Nat) : List Char → Nat → Nat
  | [], acc => acc
  | c :: rest, acc =>
    match radixDigit base c with
    | some d => digitsVal base rest (acc * base + d)
    | none => acc

/-- How many leading characters of `cs` are digits in the given base. -/
def digitsLen (base : Nat) (cs : List Char) : Nat :=
  (cs.takeWhile (fun c => (radixDigit base c).isSome)).length

/-- JavaScript `parseInt(s)` with no radix argument: skip leading
whitespace, optional sign, a `0x`/`0X` prefix switches to base 16, then
the longest digit prefix; no digits means `NaN`, modelled as `none`. -/
def parseIntJs (s : String) : Option Int :=
  let cs := s.data.dropWhile jsWS
  let signNeg : Bool := match cs with
    | '-' :: _ => true
    | _ => false
  let cs₂ := match cs with
    | '-' :: rest => rest
    | '+' :: rest => rest
    | _ => cs
  let base : Nat := match cs₂ with
    | '0' :: 'x' :: _ => 16
    | '0' :: 'X' :: _ => 16
    | _ => 10
  let cs₃ := if base = 16 then cs₂.drop 2 else cs₂
  if digitsLen base cs₃ = 0 then none
  else
    let v : Int := Int.ofNat (digitsVal base (cs₃.takeWhile (fun c => (radixDigit base c).isSome)) 0)
    some (if signNeg then -v else v)

/-- `s.replace(pat, rep)` with a string pattern: replace the first
occurrence only. -/
def replaceFirstL (pat rep : List Char) : List Char → List Char
  | [] => []
  | c :: cs => if pat.isPrefixOf (c :: cs) then rep ++ (c :: cs).drop pat.length
               else c :: replaceFirstL pat rep cs

/-- `parseInt(key.replace("chapter_", ""))`, `none` for `NaN`. -/
def keySuffix (k : String) : Option Int :=
  parseIntJs (String.mk (replaceFirstL "chapter_".data [] k.data))

/-- The comparator `(a, b) => numA - numB` of the `chapterKeys` sort
(DocumentationViewer.jsx lines 413-417), composed with the
`SortCompare` rule that a `NaN` comparator result counts as `+0`. -/
def cmpJs (a b : String) : Int :=
  match keySuffix a, keySuffix b with
  | some x, some y => x - y
  | _, _ => 0

/-- `Object.keys(chapters).sort(comparator)`: a stable sort by the
comparator, modelled with `List.insertionSort` (stable for this
ordering, hence it agrees with the engine sort whenever the comparator
is consistent). -/
def chapterKeysOrder (keys : List String) : List String :=
  keys.insertionSort (fun a b => cmpJs a b ≤ 0)

/-- The numeric suffix used for stating the ordering (total, with a
junk value on keys whose suffix does not parse). -/
def vKey (k : String) : Int :=
  (keySuffix k).getD 0

/-- Whether an event clears the loading flag. -/
def isLoadFalse : Ev → Bool
  | .setLoading false => true
  | _ => false

/-- Loading discipline of a trace: every request event must come while
the loading flag has been set and a clearing `setLoading false` must
follow it later in the trace. -/
def loadingOk : Bool → List Ev → Bool
  | _, [] => true
  | seen, e :: rest =>
    match e with
    | .setLoading b => loadingOk b rest
    | .request _ _ => seen && rest.any isLoadFalse && loadingOk seen rest
    | _ => loadingOk seen rest

/-- `orderedInsert` keeps a list sorted, assuming totality/transitivity
of `r` only where it is used (the comparator of `chapterKeysOrder` is
not globally transitive, but is on key sets whose suffixes parse). -/
theorem sorted_orderedInsert_mem {α : Type} (r : α → α → Prop) [DecidableRel r] (x : α) :
    ∀ l : List α, (∀ b ∈ l, r x b ∨ r b x) →
      (∀ b ∈ l, ∀ c ∈ l, r x b → r b c → r x c) →
      l.Sorted r → (l.orderedInsert r x).Sorted r
  | [], _, _, _ => List.sorted_singleton x
  | b :: l, tot, tr, h => by
    rw [List.orderedInsert]
    by_cases hxb : r x b
    · rw [if_pos hxb]
      refine List.sorted_cons.mpr ⟨?_, h⟩
      intro y hy
      rcases List.mem_cons.mp hy with hyb | hyl
      · exact hyb ▸ hxb
      · exact tr b (List.mem_cons_self b l) y (List.mem_cons_of_mem b hyl) hxb
          (List.rel_of_sorted_cons h y hyl)
    · rw [if_neg hxb]
      refine List.sorted_cons.mpr ⟨?_, ?_⟩
      · intro y hy
        rcases (List.mem_orderedInsert r).mp hy with hyx | hyl
        · exact hyx ▸ (tot b (List.mem_cons_self b l)).resolve_left hxb
        · exact List.rel_of_sorted_cons h y hyl
      · exact sorted_orderedInsert_mem r x l
          (fun c hc => tot c (List.mem_cons_of_mem b hc))
          (fun c hc d hd => tr c (List.mem_cons_of_mem b hc) d (List.mem_cons_of_mem b hd))
          h.of_cons

/-- `insertionSort` sorts, assuming totality/transitivity of `r` only on
members of the list. -/
theorem sorted_insertionSort_mem {α : Type} (r : α → α → Prop) [DecidableRel r] :
    ∀ l : List α, (∀ a ∈ l, ∀ b ∈ l, r a b ∨ r b a) →
      (∀ a ∈ l, ∀ b ∈ l, ∀ c ∈ l, r a b → r b c → r a c) →
      (l.insertionSort r).Sorted r
  | [], _, _ => List.sorted_nil
  | x :: l, tot, tr => by
    rw [List.insertionSort]
    have hmem : ∀ b ∈ l.insertionSort r, b ∈ l :=
      fun b hb => (List.perm_insertionSort r l).mem_iff.mp hb
    refine sorted_orderedInsert_mem r x (l.insertionSort r) ?_ ?_ ?_
    · intro b hb
      exact tot x (List.mem_cons_self x l) b (List.mem_cons_of_mem x (hmem b hb))
    · intro b hb c hc
      exact tr x (List.mem_cons_self x l) b (List.mem_cons_of_mem x (hmem b hb))
        c (List.mem_cons_of_mem x (hmem c hc))
    · exact sorted_insertionSort_mem r l
        (fun a ha b hb => tot a (List.mem_cons_of_mem x ha) b (List.mem_cons_of_mem x hb))
        (fun a ha b hb c hc => tr a (List.mem_cons_of_mem x ha) b (List.mem_cons_of_mem x hb)
          c (List.mem_cons_of_mem x hc))

/-- The comparator agrees with the suffix order on parsed keys. -/
theorem cmpJs_le_iff {a b : String} (ha : (keySuffix a).isSome = true)
    (hb : (keySuffix b).isSome = true) : cmpJs a b ≤ 0 ↔ vKey a ≤ vKey b := by
  obtain ⟨x, hx⟩ := Option.isSome_iff_exists.mp ha
  obtain ⟨y, hy⟩ := Option.isSome_iff_exists.mp hb
  simp only [cmpJs, vKey, hx, hy, Option.getD_some]
  omega

/-- Under the invariants of the stored `chapters` object (distinct keys
whose `chapter_` suffixes parse to pairwise distinct numbers), the
rendered chapter-key list is a permutation of the keys arranged in
strictly ascending suffix order. -/
theorem chapterKeysOrder_spec (keys : List String)
    (hnd : keys.Nodup)
    (hall : ∀ k ∈ keys, (keySuffix k).isSome = true)
    (hinj : ∀ a ∈ keys, ∀ b ∈ keys, keySuffix a = keySuffix b → a = b) :
    List.Perm (chapterKeysOrder keys) keys ∧
      (chapterKeysOrder keys).Pairwise (fun a b => vKey a < vKey b) := by
  have hperm : List.Perm (chapterKeysOrder keys) keys := List.perm_insertionSort _ keys
  refine ⟨hperm, ?_⟩
  have hmem : ∀ b ∈ chapterKeysOrder keys, b ∈ keys := fun b hb => hperm.mem_iff.mp hb
  have hsorted : (chapterKeysOrder keys).Pairwise (fun a b => cmpJs a b ≤ 0) := by
    refine sorted_insertionSort_mem _ keys ?_ ?_
    · intro a ha b hb
      have hx := hall a ha
      have hy := hall b hb
      obtain ⟨x, hx'⟩ := Option.isSome_iff_exists.mp hx
      obtain ⟨y, hy'⟩ := Option.isSome_iff_exists.mp hy
      simp only [cmpJs, hx', hy']
      omega
    · intro a ha b hb c hc
      obtain ⟨x, hx'⟩ := Option.isSome_iff_exists.mp (hall a ha)
      obtain ⟨y, hy'⟩ := Option.isSome_iff_exists.mp (hall b hb)
      obtain ⟨z, hz'⟩ := Option.isSome_iff_exists.mp (hall c hc)
      simp only [cmpJs, hx', hy', hz']
      omega
  have hnd₂ : (chapterKeysOrder keys).Nodup := hperm.nodup_iff.mpr hnd
  have hboth := hsorted.and hnd₂
  refine hboth.imp_of_mem ?_
  intro a b ha hb hab
  have hva : vKey a ≤ vKey b :=
    (cmpJs_le_iff (hall a (hmem a ha)) (hall b (hmem b hb))).mp hab.1
  rcases lt_or_eq_of_le hva with hlt | heq
  · exact hlt
  · exfalso
    apply hab.2
    apply hinj a (hmem a ha) b (hmem b hb)
    obtain ⟨x, hx'⟩ := Option.isSome_iff_exists.mp (hall a (hmem a ha))
    obtain ⟨y, hy'⟩ := Option.isSome_iff_exists.mp (hall b (hmem b hb))
    rw [hx', hy']
    simp only [vKey, hx', hy', Option.getD_some] at heq
    rw [heq]

/-! ## Store lemmas -/

theorem lookup_updStore_self (k : String) (v : JsVal) :
    ∀ s, lookupStore (updStore k v s) k = some v := by
  intro s
  induction s with
  | nil => simp [updStore, lookupStore]
  | cons p rest ih =>
    by_cases h : p.1 = k
    · simp [updStore, lookupStore, h]
    · simp [updStore, lookupStore, h, ih]

theorem lookup_updStore_other (k k₀ : String) (v : JsVal) (h : k₀ ≠ k) :
    ∀ s, lookupStore (updStore k₀ v s) k = lookupStore s k := by
  intro s
  induction s with
  | nil => simp [updStore, lookupStore, h]
  | cons p rest ih =>
    by_cases hp : p.1 = k₀
    · simp [updStore, lookupStore, hp, h, ih]
    · simp only [updStore, hp, if_false, lookupStore]
      by_cases hk : p.1 = k
      · simp [lookupStore, hk]
      · simp [lookupStore, hk, ih]

theorem lookup_rmStore_self (k : String) :
    ∀ s, lookupStore (rmStore k s) k = none := by
  intro s
  induction s with
  | nil => simp [rmStore, lookupStore]
  | cons p rest ih =>
    by_cases h : p.1 = k
    · simp [rmStore, h, ih]
    · simp [rmStore, lookupStore, h, ih]

theorem lookup_rmStore_other (k k₀ : String) (h : k₀ ≠ k) :
    ∀ s, lookupStore (rmStore k₀ s) k = lookupStore s k := by
  intro s
  induction s with
  | nil => simp [rmStore, lookupStore]
  | cons p rest ih =>
    by_cases hp : p.1 = k₀
    · simp [rmStore, hp, ih, lookupStore, h]
    · by_cases hk : p.1 = k
      · simp [rmStore, hp, lookupStore, hk, Ne.symm h]
      · simp [rmStore, hp, lookupStore, hk, ih]

/-! ## Claims -/

/-- Claim C1, counterexample.  The claim says every submission with a
non-empty trimmed URL issues exactly one POST to `/ingest`.  In
`HomePage.handleSubmit`, when the user has opted to use their own key,
the key is non-blank and currently marked invalid, the handler returns
before the fetch: zero requests are issued. -/
theorem c1_counterexample :
    (requestsOf (handleSubmit "r" true "k" (some false)
        (.success true (.obj [("session_id", JsVal.str "s")])))).length ≠ 1 := by
  decide

/-- Claim C1, amended.  Submitting the ingest form with a non-empty (trimmed)
URL issues exactly one POST to `/ingest` — except in `handleSubmit` when
the own-key option is active with a non-blank key marked invalid, where
no request is issued — and on a successful response the returned
`session_id` is persisted under `sessionId` and the submitted URL
(trimmed, in the `HomePage` revision) under `repoUrl`.  Stated for the
three handlers the claim cites. -/
theorem c1_amended :
    (∀ (url : String) (uok : Bool) (key : String) (kv : Option Bool)
       (outcome : FetchOutcome) (st : UIState),
      jsTrim url ≠ "" →
      ¬(uok = true ∧ jsTrim key ≠ "" ∧ kv = some false) →
      requestsOf (handleSubmit url uok key kv outcome) =
        [("/ingest", ingestBody url uok key)] ∧
      ∀ data : JsVal, outcome = .success true data →
        lookupStore (applyEvs st (handleSubmit url uok key kv outcome)).store "sessionId" =
          some (data.get "session_id") ∧
        lookupStore (applyEvs st (handleSubmit url uok key kv outcome)).store "repoUrl" =
          some (.str (jsTrim url))) ∧
    (∀ (url : String) (outcome : FetchOutcome) (st : UIState),
      url ≠ "" →
      requestsOf (handleIngestRepository url outcome) =
        [("/ingest", .obj [("repo_url", .str url)])] ∧
      ∀ data : JsVal, outcome = .success true data →
        lookupStore (applyEvs st (handleIngestRepository url outcome)).store "sessionId" =
          some (data.get "session_id") ∧
        lookupStore (applyEvs st (handleIngestRepository url outcome)).store "repoUrl" =
          some (.str url)) ∧
    (∀ (url : String) (outcome : FetchOutcome) (st : UIState),
      url ≠ "" →
      requestsOf (ingestRepository url outcome) =
        [("/ingest", .obj [("repo_url", .str url)])] ∧
      ∀ data : JsVal, outcome = .success true data →
        lookupStore (applyEvs st (ingestRepository url outcome)).store "sessionId" =
          some (data.get "session_id") ∧
        lookupStore (applyEvs st (ingestRepository url outcome)).store "repoUrl" =
          some (.str url)) := by
  refine ⟨?_, ?_, ?_⟩
  · intro url uok key kv outcome st hurl hkey
    rw [handleSubmit.eq_def, if_neg hurl, if_neg hkey]
    constructor
    · cases outcome with
      | success ok data =>
        cases ok <;> simp [requestsOf]
      | failure msg => simp [requestsOf]
    · intro data hdata
      subst hdata
      simp only [if_pos rfl]
      simp only [applyEvs, List.foldl, applyEv]
      constructor
      · rw [lookup_updStore_other _ _ _ (by decide), lookup_updStore_other _ _ _ (by decide),
          lookup_updStore_self]
      · rw [lookup_updStore_other _ _ _ (by decide), lookup_updStore_self]
  · intro url outcome st hurl
    rw [handleIngestRepository.eq_def, if_neg hurl]
    constructor
    · cases outcome with
      | success ok data => cases ok <;> simp [requestsOf]
      | failure msg => simp [requestsOf]
    · intro data hdata
      subst hdata
      simp only [if_pos rfl]
      simp only [applyEvs, List.foldl, applyEv]
      constructor
      · rw [lookup_updStore_other _ _ _ (by decide), lookup_updStore_self]
      · rw [lookup_updStore_self]
  · intro url outcome st hurl
    rw [ingestRepository.eq_def, if_neg hurl]
    constructor
    · cases outcome with
      | success ok data => simp [requestsOf]
      | failure msg => simp [requestsOf]
    · intro data hdata
      subst hdata
      simp only [applyEvs, List.foldl, applyEv]
      constructor
      · rw [lookup_updStore_other _ _ _ (by decide), lookup_updStore_self]
      · rw [lookup_updStore_self]

/-- C1 witness: the amended theorem applied at a concrete submission. -/
theorem c1_witness :
    requestsOf (handleSubmit "https://github.com/u/r" false "" none
        (.success true (.obj [("session_id", JsVal.str "abc")]))) =
      [("/ingest", ingestBody "https://github.com/u/r" false "")] :=
  (c1_amended.1 "https://github.com/u/r" false "" none
    (.success true (.obj [("session_id", JsVal.str "abc")]))
    ⟨[], [], false, false, false, "", "", "/", 1, .str "", none, ""⟩
    (by decide) (by decide)).1

/-- Claim C4, counterexample.  The claim says "New Repository" removes all
four local-storage keys.  Starting from a store holding all four,
`DocumentationViewer.handleNewRepository` leaves `hasUserKey` in place:
only `documentationData`, `sessionId` and `repoUrl` are removed. -/
theorem c4_counterexample :
    lookupStore (applyEvs
      ⟨[("sessionId", .str "s"), ("repoUrl", .str "r"),
        ("documentationData", .str "d"), ("hasUserKey", .str "true")],
       [], false, false, false, "", "", "/docs", 1, .str "s", none, ""⟩
      handleNewRepositoryViewer).store "hasUserKey" = some (.str "true") := by
  rfl

/-- Claim C4, amended.  Every invocation of "New Repository" (both cited
revisions) removes the three keys `sessionId`, `repoUrl` and
`documentationData` and returns to the home route; the fourth key,
`hasUserKey`, is left untouched. -/
theorem c4_amended :
    ∀ st : UIState,
      (lookupStore (applyEvs st handleNewRepositoryViewer).store "sessionId" = none ∧
       lookupStore (applyEvs st handleNewRepositoryViewer).store "repoUrl" = none ∧
       lookupStore (applyEvs st handleNewRepositoryViewer).store "documentationData" = none ∧
       lookupStore (applyEvs st handleNewRepositoryViewer).store "hasUserKey" =
         lookupStore st.store "hasUserKey" ∧
       (applyEvs st handleNewRepositoryViewer).route = "/") ∧
      (lookupStore (applyEvs st handleNewRepositoryGen).store "sessionId" = none ∧
       lookupStore (applyEvs st handleNewRepositoryGen).store "repoUrl" = none ∧
       lookupStore (applyEvs st handleNewRepositoryGen).store "documentationData" = none ∧
       lookupStore (applyEvs st handleNewRepositoryGen).store "hasUserKey" =
         lookupStore st.store "hasUserKey" ∧
       (applyEvs st handleNewRepositoryGen).route = "/") := by
  intro st
  constructor
  · simp only [handleNewRepositoryViewer, applyEvs, List.foldl, applyEv]
    refine ⟨?_, ?_, ?_, ?_, trivial⟩
    · rw [lookup_rmStore_other _ _ (by decide), lookup_rmStore_self]
    · rw [lookup_rmStore_self]
    · rw [lookup_rmStore_other _ _ (by decide), lookup_rmStore_other _ _ (by decide),
        lookup_rmStore_self]
    · rw [lookup_rmStore_other _ _ (by decide), lookup_rmStore_other _ _ (by decide),
        lookup_rmStore_other _ _ (by decide)]
  · simp only [handleNewRepositoryGen, applyEvs, List.foldl, applyEv]
    refine ⟨?_, ?_, ?_, ?_, trivial⟩
    · rw [lookup_rmStore_other _ _ (by decide), lookup_rmStore_other _ _ (by decide),
        lookup_rmStore_self]
    · rw [lookup_rmStore_other _ _ (by decide), lookup_rmStore_self]
    · rw [lookup_rmStore_self]
    · rw [lookup_rmStore_other _ _ (by decide), lookup_rmStore_other _ _ (by decide),
        lookup_rmStore_other _ _ (by decide)]

/-- Claim C5, confirmed.  `sendMessage` with an empty query or an empty
session id changes no state (messages, loading flag and query included)
and issues no request. -/
theorem c5_noop (q sid : String) (outcome : FetchOutcome) (st : UIState)
    (h : q = "" ∨ sid = "") :
    applyEvs st (sendMessage q sid outcome) = st ∧
      requestsOf (sendMessage q sid outcome) = [] := by
  rw [sendMessage.eq_def, if_pos h]
  exact ⟨rfl, rfl⟩

/-- C5 witness: the no-op theorem applied at an empty query. -/
theorem c5_witness :
    applyEvs ⟨[], [], false, false, false, "", "", "/chat", 1, .str "s", none, ""⟩
        (sendMessage "" "s" (.failure "boom")) =
      ⟨[], [], false, false, false, "", "", "/chat", 1, .str "s", none, ""⟩ ∧
      requestsOf (sendMessage "" "s" (.failure "boom")) = [] :=
  c5_noop "" "s" (.failure "boom") _ (Or.inl rfl)

/-- Claim C10, confirmed.  A non-empty whitespace-only query with a non-empty
session id is not filtered: the guard `!query` tests falsiness and does
not trim, so the query is appended as a user message and a POST `/chat`
carrying it is issued. -/
theorem c10_whitespace_query (q sid : String) (outcome : FetchOutcome) (st : UIState)
    (hq : q ≠ "") (hws : ∀ c ∈ q.data, jsWS c = true) (hsid : sid ≠ "") :
    requestsOf (sendMessage q sid outcome) =
      [("/chat", .obj [("session_id", .str sid), ("query", .str q)])] ∧
    ∃ tail, (applyEvs st (sendMessage q sid outcome)).messages =
      st.messages ++ ("user", JsVal.str q) :: tail := by
  rw [sendMessage.eq_def, if_neg (not_or.mpr ⟨hq, hsid⟩)]
  cases outcome with
  | success ok data =>
    refine ⟨by simp [requestsOf], ⟨[("assistant", data.get "answer")], ?_⟩⟩
    simp [applyEvs, applyEv]
  | failure msg =>
    refine ⟨by simp [requestsOf], ⟨[("assistant", .str ("Error: " ++ msg))], ?_⟩⟩
    simp [applyEvs, applyEv]

/-- C10 witness: the theorem applied at the single-space query. -/
theorem c10_witness :
    requestsOf (sendMessage " " "s" (.success true (.obj [("answer", JsVal.str "hi")]))) =
      [("/chat", .obj [("session_id", .str "s"), ("query", .str " ")])] :=
  (c10_whitespace_query " " "s" (.success true (.obj [("answer", JsVal.str "hi")]))
    ⟨[], [], false, false, false, " ", "", "/chat", 1, .str "s", none, ""⟩
    (by decide) (by decide) (by decide)).1

/-- Claim C2, confirmed.  For a successful (`response.ok`) `/generate-docs`
response whose body carries an `introduction` or a `chapters` field (the
documented response shape), both cited handlers store the body under
`documentationData`, and the store event strictly precedes the
navigation to the viewer route. -/
theorem c2_generate_stores_before_nav (sid : String) (data : JsVal) (st : UIState)
    (hsid : sid ≠ "")
    (hshape : (data.hasF "introduction" || data.hasF "chapters") = true) :
    (lookupStore (applyEvs st (handleGenerateDocumentation sid (.success true data))).store
        "documentationData" = some data ∧
      ∃ i j, i < j ∧
        (handleGenerateDocumentation sid (.success true data)).get? i =
          some (.storeSet "documentationData" data) ∧
        (handleGenerateDocumentation sid (.success true data)).get? j =
          some (.navigate "/docs")) ∧
    (lookupStore (applyEvs st (homeGenerateDocs sid (.success true data))).store
        "documentationData" = some data ∧
      ∃ i j, i < j ∧
        (homeGenerateDocs sid (.success true data)).get? i =
          some (.storeSet "documentationData" data) ∧
        (homeGenerateDocs sid (.success true data)).get? j =
          some (.navigate "/docs")) := by
  constructor
  · rw [handleGenerateDocumentation.eq_def, if_neg hsid]
    constructor
    · simp only [applyEvs, List.foldl, applyEv, List.cons_append, List.nil_append]
      rw [lookup_updStore_self]
    · exact ⟨4, 7, by omega, rfl, rfl⟩
  · rw [homeGenerateDocs.eq_def, if_neg hsid]
    constructor
    · simp only [applyEvs, List.foldl, applyEv, List.cons_append, List.nil_append]
      rw [lookup_updStore_self]
    · exact ⟨3, 4, by omega, rfl, rfl⟩

/-- C2 witness: the theorem applied at a concrete session and body. -/
theorem c2_witness :
    lookupStore (applyEvs
        ⟨[], [], false, false, false, "", "", "/generate", 1, .str "s", none, ""⟩
        (handleGenerateDocumentation "s"
          (.success true (.obj [("introduction", .str "intro")])))).store
      "documentationData" = some (.obj [("introduction", .str "intro")]) :=
  ((c2_generate_stores_before_nav "s" (.obj [("introduction", .str "intro")])
    ⟨[], [], false, false, false, "", "", "/generate", 1, .str "s", none, ""⟩
    (by decide) (by decide)).1).1

/-- Claim C3, confirmed.  On viewer mount (both cited revisions, each with its
own structural-validity test): an absent item, an unparsable item, or a
structurally invalid value redirects to the home route after the fixed
2000 ms delay with no data loaded; a structurally valid value is loaded
into state with no redirect. -/
theorem c3_viewer_mount (d : StoredDoc) :
    (validDocMain d = false →
      (viewerMount d).redirect = some ("/", 2000) ∧ (viewerMount d).data = none) ∧
    (validDocMain d = true →
      (viewerMount d).redirect = none ∧
        ∃ v, d = .parsed v ∧ (viewerMount d).data = some v) ∧
    (validDocAlt d = false →
      (viewerMountAlt d).redirect = some ("/", 2000) ∧ (viewerMountAlt d).data = none) ∧
    (validDocAlt d = true →
      (viewerMountAlt d).redirect = none ∧
        ∃ v, d = .parsed v ∧ (viewerMountAlt d).data = some v) := by
  cases d with
  | absent => simp [validDocMain, validDocAlt, viewerMount, viewerMountAlt]
  | invalidJson => simp [validDocMain, validDocAlt, viewerMount, viewerMountAlt]
  | parsed v =>
    by_cases h1 : (v.get "introduction").truthy = true <;>
      by_cases h2 : (v.get "chapters").truthy = true <;>
        simp_all [validDocMain, validDocAlt, viewerMount, viewerMountAlt]

/-- C3 witness: the theorem applied to a stored value with an
introduction (valid for the main revision, invalid for the stricter
part_005 revision). -/
theorem c3_witness :
    (viewerMount (.parsed (.obj [("introduction", .str "x")]))).redirect = none ∧
    (viewerMountAlt (.parsed (.obj [("introduction", .str "x")]))).redirect =
      some ("/", 2000) :=
  ⟨((c3_viewer_mount (.parsed (.obj [("introduction", .str "x")]))).2.1 (by decide)).1,
   ((c3_viewer_mount (.parsed (.obj [("introduction", .str "x")]))).2.2.1 (by decide)).1⟩

/-- Claim C7, confirmed.  For each of the three cited handlers (ingest submit,
generate-docs, chat send), any single invocation issues at most one
network request, and whenever a request is issued the boolean loading
flag has been set earlier in the trace and is cleared later in the
trace, on success and on failure alike. -/
theorem c7_single_request_loading :
    (∀ (url : String) (uok : Bool) (key : String) (kv : Option Bool)
       (outcome : FetchOutcome),
      (requestsOf (handleSubmit url uok key kv outcome)).length ≤ 1 ∧
      loadingOk false (handleSubmit url uok key kv outcome) = true) ∧
    (∀ (sid : String) (outcome : FetchOutcome),
      (requestsOf (handleGenerateDocumentation sid outcome)).length ≤ 1 ∧
      loadingOk false (handleGenerateDocumentation sid outcome) = true) ∧
    (∀ (q sid : String) (outcome : FetchOutcome),
      (requestsOf (sendMessage q sid outcome)).length ≤ 1 ∧
      loadingOk false (sendMessage q sid outcome) = true) := by
  refine ⟨?_, ?_, ?_⟩
  · intro url uok key kv outcome
    rw [handleSubmit.eq_def]
    split_ifs <;>
      first
      | exact ⟨by simp [requestsOf], rfl⟩
      | (cases outcome with
         | success ok data =>
           cases ok <;>
             exact ⟨by simp [requestsOf], by simp [loadingOk, isLoadFalse, List.any]⟩
         | failure msg =>
           exact ⟨by simp [requestsOf], by simp [loadingOk, isLoadFalse, List.any]⟩)
  · intro sid outcome
    rw [handleGenerateDocumentation.eq_def]
    split_ifs with h₁
    · exact ⟨by simp [requestsOf], rfl⟩
    · cases outcome with
      | success ok data =>
        cases ok <;>
          exact ⟨by simp [requestsOf], by simp [loadingOk, isLoadFalse, List.any]⟩
      | failure msg =>
        exact ⟨by simp [requestsOf], by simp [loadingOk, isLoadFalse, List.any]⟩
  · intro q sid outcome
    rw [sendMessage.eq_def]
    split_ifs with h₁
    · exact ⟨by simp [requestsOf], rfl⟩
    · cases outcome with
      | success ok data =>
        exact ⟨by simp [requestsOf], by simp [loadingOk, isLoadFalse, List.any]⟩
      | failure msg =>
        exact ⟨by simp [requestsOf], by simp [loadingOk, isLoadFalse, List.any]⟩

/-- Claim C8, confirmed.  On any actual edit of the API-key input (the new
value differs from the closure-captured `apiKey` state), the debounce
callback installed by `handleApiKeyChange` never calls `validateApiKey`
(its guard compares the stale captured value), so no `/validate-key`
request is issued from this path and `keyValid` stays `null`. -/
theorem c8_debounce_never_validates (apiKey newKey : String) (outcome : FetchOutcome)
    (st : UIState) (h : newKey ≠ apiKey) :
    (handleApiKeyChange apiKey newKey).2.fires = false ∧
    debouncedEvents apiKey newKey outcome = [] ∧
    requestsOf (debouncedEvents apiKey newKey outcome) = [] ∧
    (applyEvs st (handleApiKeyChange apiKey newKey).1).keyValid = none := by
  have hfires : (handleApiKeyChange apiKey newKey).2.fires = false := by
    simp only [handleApiKeyChange]
    have : decide (apiKey = newKey) = false :=
      decide_eq_false_iff_not.mpr fun heq => h heq.symm
    simp [this]
  refine ⟨hfires, ?_, ?_, rfl⟩
  · rw [debouncedEvents, hfires]
    simp
  · rw [debouncedEvents, hfires]
    simp [requestsOf]

/-- C8 witness: the theorem applied at a concrete edit. -/
theorem c8_witness :
    (handleApiKeyChange "" "AIza-key").2.fires = false :=
  (c8_debounce_never_validates "" "AIza-key" (.failure "unreached")
    ⟨[], [], false, false, false, "", "", "/", 1, .str "", none, ""⟩
    (by decide)).1

/-- Claim C6, confirmed.  Under the invariants of a stored `chapters` object —
`Object.keys` yields distinct keys, and each key's numeric suffix
(`parseInt` of the key with the `chapter_` prefix removed) exists and is
distinct — the sidebar's chapter-key list is the keys in strictly
ascending suffix order, and it is the same list whatever order the keys
of the stored object come in. -/
theorem c6_chapter_order (keys : List String)
    (hnd : keys.Nodup)
    (hall : ∀ k ∈ keys, (keySuffix k).isSome = true)
    (hinj : ∀ a ∈ keys, ∀ b ∈ keys, keySuffix a = keySuffix b → a = b) :
    List.Perm (chapterKeysOrder keys) keys ∧
    (chapterKeysOrder keys).Pairwise (fun a b => vKey a < vKey b) ∧
    ∀ keys₂, List.Perm keys₂ keys → chapterKeysOrder keys₂ = chapterKeysOrder keys := by
  obtain ⟨hperm, hstrict⟩ := chapterKeysOrder_spec keys hnd hall hinj
  refine ⟨hperm, hstrict, ?_⟩
  intro keys₂ hp
  have hnd₂ : keys₂.Nodup := hp.nodup_iff.mpr hnd
  have hall₂ : ∀ k ∈ keys₂, (keySuffix k).isSome = true :=
    fun k hk => hall k (hp.mem_iff.mp hk)
  have hinj₂ : ∀ a ∈ keys₂, ∀ b ∈ keys₂, keySuffix a = keySuffix b → a = b :=
    fun a ha b hb => hinj a (hp.mem_iff.mp ha) b (hp.mem_iff.mp hb)
  obtain ⟨hperm₂, hstrict₂⟩ := chapterKeysOrder_spec keys₂ hnd₂ hall₂ hinj₂
  have hpp : List.Perm (chapterKeysOrder keys₂) (chapterKeysOrder keys) :=
    hperm₂.trans (hp.trans hperm.symm)
  haveI : IsAntisymm String (fun a b => vKey a < vKey b ∨ a = b) := by
    constructor
    intro a b hab hba
    rcases hab with h | h
    · rcases hba with h₂ | h₂
      · omega
      · exact h₂.symm
    · exact h
  have hs₂ : (chapterKeysOrder keys₂).Sorted (fun a b => vKey a < vKey b ∨ a = b) :=
    hstrict₂.imp fun h => Or.inl h
  have hs₁ : (chapterKeysOrder keys).Sorted (fun a b => vKey a < vKey b ∨ a = b) :=
    hstrict.imp fun h => Or.inl h
  exact List.eq_of_perm_of_sorted hpp hs₂ hs₁

/-- C6 witness: the theorem applied at a concrete chapter-key set, in
two different stored orders. -/
theorem c6_witness :
    chapterKeysOrder ["chapter_10", "chapter_1", "chapter_2"] =
      chapterKeysOrder ["chapter_2", "chapter_10", "chapter_1"] :=
  (c6_chapter_order ["chapter_2", "chapter_10", "chapter_1"]
    (by decide) (by decide) (by decide)).2.2
    ["chapter_10", "chapter_1", "chapter_2"] (by decide)

/-- Fallback equation for `countTicks`: a head character that does not
open a fence marker is skipped. -/
theorem countTicks_cons (c : Char) (l : List Char)
    (h : ∀ rest : List Char, c = '`' → l = '`' :: '`' :: rest → False) :
    countTicks (c :: l) = countTicks l := by
  rw [countTicks.eq_def]
  split
  · next rest heq =>
    exfalso
    injection heq with h1 h2
    exact h rest h1 h2
  · next c₂ rest heq =>
    injection heq with h1 h2
    rw [h2]
  · next heq => exact absurd heq (by simp)

/-- Appending `"\n```"` adds exactly one fence marker: the newline
separates the appendix from any trailing backticks. -/
theorem countTicks_append_nl : ∀ cs : List Char,
    countTicks (cs ++ ['\n', '`', '`', '`']) = countTicks cs + 1 := by
  intro cs
  induction cs using countTicks.induct with
  | case1 rest ih => simpa [countTicks] using ih
  | case2 c rest h ih =>
    have h₂ : ∀ rest₂ : List Char, c = '`' →
        rest ++ ['\n', '`', '`', '`'] = '`' :: '`' :: rest₂ → False := by
      intro rest₂ hc happ
      match rest, happ with
      | [], happ => simp at happ
      | [x], happ =>
        rw [List.cons_append, List.nil_append] at happ
        injection happ with e1 e2
        injection e2 with e3 e4
        exact absurd e3 (by decide)
      | x :: y :: rest₃, happ =>
        rw [List.cons_append, List.cons_append] at happ
        injection happ with e1 e2
        injection e2 with e3 e4
        exact h rest₃ hc (by rw [e1, e3])
    rw [List.cons_append, countTicks_cons c _ h₂, countTicks_cons c rest h, ih]
  | case3 => simp [countTicks]

/-- The closing-fence step always leaves an even fence-marker count. -/
theorem countTicks_closeFences_even (cs : List Char) :
    countTicks (closeFences cs) % 2 = 0 := by
  rw [closeFences]
  split_ifs with h
  · rw [countTicks_append_nl]
    omega
  · omega

/-- Claim C9, counterexample.  The claim says `sanitizeContent` always returns
an evenly fenced string.  On the input `"``` <z``` x>"` the fence count
is even (2) when the closing-fence step runs, so nothing is appended,
but the later stray-HTML-removal pass deletes the tag `<z``` x>`
together with the fence marker inside it, leaving an odd count. -/
theorem c9_counterexample :
    countTicks (sanitizeContent "``` <z``` x>").data % 2 ≠ 0 := by
  decide

/-- Claim C9, amended.  `sanitizeContent` makes the number of fence markers
even at its closing-fence step (for every input of the preceding
pipeline stages); the subsequent heading-fix and stray-HTML-removal
passes run after that fix, and the removal pass can delete fence
markers, so the evenness guarantee holds at that stage but not
necessarily for the final result. -/
theorem c9_amended (s : String) :
    countTicks (closeFences (replScan matchNlRun (preprocessChars s.data).length true
      (preprocessChars s.data))) % 2 = 0 :=
  countTicks_closeFences_even _
